import Mathlib

set_option maxRecDepth 1000000

/-! Shallow embedding of the pyz build module (src/pyz.py): include resolution,
bootstrap generation, archive writing and the unix launcher, together with
theorems checking the specification's claims against the embedded code.

Modelling conventions:
* The host is POSIX-like: the OS path separator is "/" and filename case is
  significant (os.path.normcase is the identity).
* Byte strings are lists of naturals; the bytes of a generated text are its
  code points (file contents are opaque to the container model).
* The zip container is modelled abstractly but keeps the format's offset
  dependence: the data written for a member list records the absolute file
  offset of each member record and of the central directory, as zipfile
  does, so data appended after a header differs from data written at offset
  zero; record contents are otherwise opaque.
-/

/-- Join a list of strings with a separator, as Python str.join. -/
def strJoin (sep : String) : List String → String
  | [] => ""
  | [x] => x
  | x :: y :: ys => x ++ sep ++ strJoin sep (y :: ys)

/-- Decide whether the first character list starts with the second one. -/
def leadsWith : List Char → List Char → Bool
  | _, [] => true
  | [], _ :: _ => false
  | a :: as, b :: bs => a == b && leadsWith as bs

/-- Decide whether the needle occurs as a contiguous run of the haystack. -/
def containsRun : List Char → List Char → Bool
  | hay, needle =>
    match hay with
    | [] => needle.isEmpty
    | _ :: hs => leadsWith hay needle || containsRun hs needle

/-- Decide whether the needle occurs as a substring of the haystack. -/
def strContains (hay needle : String) : Bool := containsRun hay.data needle.data

/-- Decide whether a string starts with another. -/
def strStarts (s pre : String) : Bool := leadsWith s.data pre.data

/-- Decide whether a string ends with another. -/
def strEnds (s suf : String) : Bool := leadsWith s.data.reverse suf.data.reverse

/-- Helper of splitSlash, carrying the reversed current segment. -/
def splitSlashAux : List Char → List Char → List String
  | acc, [] => [String.mk acc.reverse]
  | acc, '/' :: rest => String.mk acc.reverse :: splitSlashAux [] rest
  | acc, c :: rest => splitSlashAux (c :: acc) rest

/-- Python s.split("/"): the POSIX os.path.sep split used by the code. -/
def splitSlash (s : String) : List String := splitSlashAux [] s.data

/-- Fueled core of the shell-style wildcard matcher: a star matches any
sequence, a question mark any single character, anything else itself. Every
recursive call lowers the sum of the two list lengths, so a fuel strictly
above that sum can never run out and only keeps the recursion structural. -/
def fnmatchFuel : Nat → List Char → List Char → Bool
  | 0, _, _ => false
  | _ + 1, [], s => s.isEmpty
  | f + 1, '*' :: ps, [] => fnmatchFuel f ps []
  | f + 1, '*' :: ps, c :: cs => fnmatchFuel f ps (c :: cs) || fnmatchFuel f ('*' :: ps) cs
  | _ + 1, _ :: _, [] => false
  | f + 1, p :: ps, c :: cs => (p == '?' || p == c) && fnmatchFuel f ps cs

/-- Shell-style wildcard matching of fnmatch.fnmatchcase. Bracketed character
classes are not modelled; every glob appearing in this repository's defaults
is class-free. Matching is case-sensitive, since the POSIX os.path.normcase
is the identity. -/
def fnmatchChars (p s : List Char) : Bool := fnmatchFuel (p.length + s.length + 1) p s

/-- Python fnmatch.fnmatch(name, pat) on a POSIX host. -/
def fnmatchStr (name pat : String) : Bool := fnmatchChars pat.data name.data

/-- Python fnmatch.filter: keep, in order, the names matching the pattern. -/
def fnmatchFilter (names : List String) (pat : String) : List String :=
  names.foldr (fun n acc => if fnmatchStr n pat then n :: acc else acc) []

/-- POSIX os.path.join restricted to two components, as used by the code. -/
def pathJoin (a b : String) : String :=
  if strStarts b "/" then b
  else if a == "" || strEnds a "/" then a ++ b
  else a ++ "/" ++ b

/-- POSIX os.path.normpath: collapse repeated separators, drop "." segments
and resolve ".." segments where possible. -/
def normpath (path : String) : String :=
  if path = "" then "."
  else
    let initialSlashes : Nat :=
      if strStarts path "/" then
        if strStarts path "//" && !strStarts path "///" then 2 else 1
      else 0
    let comps := splitSlash path
    let newComps := comps.foldl (fun acc comp =>
      if comp == "" || comp == "." then acc
      else if comp != ".." || (initialSlashes == 0 && acc.isEmpty) ||
              (!acc.isEmpty && acc.getLast? == some "..") then acc ++ [comp]
      else if !acc.isEmpty then acc.dropLast
      else acc) ([] : List String)
    let joined := strJoin "/" newComps
    let full := if initialSlashes == 2 then "//" ++ joined
      else if initialSlashes == 1 then "/" ++ joined
      else joined
    if full == "" then "." else full

/-- POSIX basename: the final path component. -/
def baseName (p : String) : String := (splitSlash p).getLastD p

/-- Interpreter versions as (major, minor, micro) triples of naturals; the
generated guard compares the running version against the bounds with Python
tuple (lexicographic) ordering. -/
abbrev Version := Nat × Nat × Nat

/-- Lexicographic strict order on version triples. -/
def versionLt (a b : Version) : Bool :=
  decide (a.1 < b.1 ∨ (a.1 = b.1 ∧ (a.2.1 < b.2.1 ∨ (a.2.1 = b.2.1 ∧ a.2.2 < b.2.2))))

/-- Python str of a 3-tuple of ints, e.g. "(2, 7, 0)". -/
def pyVerTupleStr (v : Version) : String :=
  "(" ++ toString v.1 ++ ", " ++ toString v.2.1 ++ ", " ++ toString v.2.2 ++ ")"

/-- Dotted version string ".".join(map(str, v)), e.g. "2.7.0". -/
def pyVerDotStr (v : Version) : String :=
  toString v.1 ++ "." ++ toString v.2.1 ++ "." ++ toString v.2.2

/-- VersionRequirement of pyz.py: optional minimum and maximum bounds and the
exclusivity flag of the maximum bound. -/
structure VersionRequirement where
  minimum : Option Version
  maximum : Option Version
  exclusive_maximum : Bool

/-- VersionRequirement.__init__: both bounds default to None and the
exclusivity flag defaults to True. -/
def VersionRequirement.make (minimum maximum : Option Version) (exclusive : Option Bool) : VersionRequirement :=
  ⟨minimum, maximum, exclusive.getD true⟩

/-- Text of __VERSION_CHECK_TEMPLATE after lstrip, with its three format
fields substituted. -/
def versionCheckTemplate (check minStr maxStr : String) : String :=
  "import sys\nv = sys.version_info\nif " ++ check ++
  ":\n    # Print error message\n    sys.stderr.write(\"Python {0}.{1}.{2} is not supported.\\n\".format(v.major, v.minor, v.micro))\n    sys.stderr.write(\"Supported versions: " ++
  minStr ++ "version" ++ maxStr ++ "\\n\")\n    sys.exit(1)\n"

/-- String minimum_version_str of __generate_main. -/
def minimumVersionStr (vr : VersionRequirement) : String :=
  match vr.minimum with
  | none => ""
  | some m => pyVerDotStr m ++ " <= "

/-- String maximum_version_str of __generate_main. -/
def maximumVersionStr (vr : VersionRequirement) : String :=
  match vr.maximum with
  | none => ""
  | some m => " " ++ (if vr.exclusive_maximum then "<" else "<=") ++ " " ++ pyVerDotStr m

/-- List version_checks built by __generate_main: the minimum failure check
first when a minimum is set, then the maximum failure check when a maximum is
set, as literal Python condition strings. -/
def versionChecks (vr : VersionRequirement) : List String :=
  (match vr.minimum with
   | none => []
   | some m => ["(v < " ++ pyVerTupleStr m ++ ")"]) ++
  (match vr.maximum with
   | none => []
   | some m => [(if vr.exclusive_maximum then "(v >= " else "(v > ") ++ pyVerTupleStr m ++ ")"])

/-- Version-guard text (version_code): empty when no requirement is supplied
or when the requirement has no bound, else the filled check template with the
checks joined by " or ". -/
def versionCode (ovr : Option VersionRequirement) : String :=
  match ovr with
  | none => ""
  | some vr =>
    match versionChecks vr with
    | [] => ""
    | c :: cs => versionCheckTemplate (strJoin " or " (c :: cs)) (minimumVersionStr vr) (maximumVersionStr vr)

/-- Truth value of the emitted guard condition at a running version v: the
disjunction of "v < minimum" when a minimum is set and "v >= maximum" or
"v > maximum" when a maximum is set, by exclusivity, with Python tuple
comparison and the running version taken as its (major, minor, micro)
triple. -/
def guardTriggers (vr : VersionRequirement) (v : Version) : Bool :=
  (match vr.minimum with
   | none => false
   | some m => versionLt v m) ||
  (match vr.maximum with
   | none => false
   | some m => if vr.exclusive_maximum then !versionLt v m else versionLt m v)

/-- Dotted module reference computed at line 148 of pyz.py: normalize the
path, split on the separator, keep the segments of positive length, join the
rest with ".". -/
def dottedModuleRef (p : String) : String :=
  strJoin "." ((splitSlash (normpath p)).filter (fun pkg => decide (0 < pkg.length)))

/-- Text of __MAIN_TEMPLATE after lstrip, with its three fields filled. -/
def mainTemplate (vcode dotted fname : String) : String :=
  vcode ++ "\n# Run main\nfrom " ++ dotted ++ " import " ++ fname ++ "\n" ++ fname ++ "()\n"

/-- The __generate_main function: bootstrap text from the main module path,
the optional main function name and the optional version requirement. -/
def generateMain (mainPath : String) (mainFunction : Option String) (ovr : Option VersionRequirement) : String :=
  mainTemplate (versionCode ovr) (dottedModuleRef mainPath) (mainFunction.getD "main")

/-- Modelled from the spec: the module-path translation as the specification
words it, splitting on the separator and dropping empty segments, with no
prior normalization; kept separate so it can be compared with
dottedModuleRef. -/
def claimDottedRef (p : String) : String :=
  strJoin "." ((splitSlash p).filter (fun seg => seg != ""))

/-- Include of pyz.py, with the fields as they stand after __init__. -/
structure Include where
  source_path : String
  destination_path : String
  glob : String

/-- Include.__init__: the destination defaults to the source path and the
glob defaults to "*.py". -/
def Include.make (source_path : String) (destination_path : Option String) (glob : Option String) : Include :=
  ⟨source_path, destination_path.getD source_path, glob.getD "*.py"⟩

/-- Unixify of pyz.py. -/
structure Unixify where
  out_file_path : Option String
  shebang : String

/-- Unixify.__init__: the shebang defaults to "/usr/bin/env python". -/
def Unixify.make (out_file_path : Option String) (shebang : Option String) : Unixify :=
  ⟨out_file_path, shebang.getD "/usr/bin/env python"⟩

/-- Byte strings of the model. -/
abbrev Bytes := List Nat

/-- Bytes of a generated text: its code points (contents are opaque to the
container model). -/
def strBytes (s : String) : Bytes := s.data.map Char.toNat

/-- One triple yielded by os.walk: directory path, subdirectory names (which
the code never reads) and file names. -/
structure WalkEntry where
  dirpath : String
  dirnames : List String
  filenames : List String

/-- Readable view of the file system from a fixed working directory. -/
structure FSView where
  isfile : String → Bool
  walk : String → List WalkEntry
  readFile : String → Bytes

/-- Archive member: destination name inside the archive and content bytes. -/
abbrev Entry := String × Bytes

/-- Concatenation of the images of a list under a list-valued function. -/
def concatMap {α β : Type} (g : α → List β) : List α → List β
  | [] => []
  | x :: xs => g x ++ concatMap g xs

/-- The __add_include_path function: a source naming an existing regular file
is written to archive_path/destination_path; otherwise the source is treated
as a directory, the destination must equal the source (else the ValueError of
line 170 is raised, before anything of this include is written), and every
walked file whose name matches the glob is written with its full walked path
kept below the archive path. A zip write is modelled by appending to the list
of members written so far. -/
def addIncludePath (fs : FSView) (archivePath : String) (inc : Include) (entries : List Entry) : Except String (List Entry) :=
  if fs.isfile inc.source_path then
    .ok (entries ++ [(pathJoin archivePath inc.destination_path, fs.readFile inc.source_path)])
  else if inc.source_path ≠ inc.destination_path then
    .error "Source is a directory and cannot be mapped."
  else
    .ok ((fs.walk inc.source_path).foldl (fun acc info =>
      (fnmatchFilter info.filenames inc.glob).foldl (fun acc2 filename =>
        acc2 ++ [(pathJoin archivePath (pathJoin info.dirpath filename),
                  fs.readFile (pathJoin info.dirpath filename))]) acc) entries)

/-- Loop of add_includes over the include list, threading the member list and
propagating the first failure. -/
def collectEntries (fs : FSView) (archivePath : String) : List Include → List Entry → Except String (List Entry)
  | [], entries => .ok entries
  | inc :: rest, entries =>
    match addIncludePath fs archivePath inc entries with
    | .error e => .error e
    | .ok es => collectEntries fs archivePath rest es

/-- Opaque model of one serialized archive member. -/
def entryBytes (e : Entry) : Bytes := e.1.length :: (strBytes e.1 ++ e.2.length :: e.2)

/-- Member records of a zip laid out consecutively from absolute file offset
k: the concatenated record bytes together with the absolute offset at which
each member's record starts. -/
def zipLocals : Nat → List Entry → Bytes × List Nat
  | _, [] => ([], [])
  | k, e :: es =>
    let b := entryBytes e
    let r := zipLocals (k + b.length) es
    (b ++ r.1, k :: r.2)

/-- Abstract model of the zip data for a member list written starting at
absolute file offset k: the member records laid out consecutively from k,
then a central directory whose records carry the absolute offset of each
member's record, then an end record carrying the absolute offset of the
central directory, as the zip format and Python's zipfile do. Record
contents are otherwise opaque. Mode w writes at offset 0; mode a appends at
the current end of the file, so a prepended header shifts every recorded
offset. -/
def zipDataAt (k : Nat) (es : List Entry) : Bytes :=
  (zipLocals k es).1 ++
  concatMap (fun p => p.1 :: entryBytes p.2) ((zipLocals k es).2.zip es) ++
  [k + (zipLocals k es).1.length]

/-- Process state: the current working directory and the written files. -/
structure Sys where
  cwd : String
  files : String → Option Bytes

/-- Truncating write of a whole file. -/
def Sys.writeFile (s : Sys) (p : String) (b : Bytes) : Sys :=
  ⟨s.cwd, fun q => if q = p then some b else s.files q⟩

/-- The file system surrounding a build: a readable view per working
directory, and which directories exist (consulted by os.chdir). -/
structure World where
  view : String → FSView
  dirExists : String → Bool

/-- Model of os.chdir: fails when the target does not exist, else changes the
working directory, resolving a relative target against the current one. -/
def chdirOp (w : World) (s : Sys) (d : String) : Except String Sys :=
  if w.dirExists (pathJoin s.cwd d) then .ok ⟨pathJoin s.cwd d, s.files⟩
  else .error "chdir: no such file or directory"

/-- Arguments of one call of pyz.build. -/
structure BuildRequest where
  out_file_path : String
  main_module_path : String
  includes : List Include
  include_directory : Option String
  main_function : Option String
  version_requirement : Option VersionRequirement
  archive_source_base : Option String
  unixify : Option Unixify

/-- Member-collection phase of write_zip_app: resolve the includes (from
inside the include directory when one is given, the old working directory
being restored on success and failure alike, as the try/finally of lines
71-77 guarantees) and append the generated __main__.py as the last member. -/
def zipAppPhase (w : World) (req : BuildRequest) (s : Sys) : Except String (List Entry) × Sys :=
  let basePath := req.archive_source_base.getD "dist"
  let finish := fun (es : List Entry) =>
    es ++ [("__main__.py", strBytes (generateMain (pathJoin basePath req.main_module_path)
                                      req.main_function req.version_requirement))]
  match req.include_directory with
  | none =>
    ((match collectEntries (w.view s.cwd) basePath req.includes [] with
      | .error e => .error e
      | .ok es => .ok (finish es)), s)
  | some d =>
    match chdirOp w s d with
    | .error e => (.error e, s)
    | .ok s1 =>
      match collectEntries (w.view s1.cwd) basePath req.includes [] with
      | .error e => (.error e, ⟨s.cwd, s1.files⟩)
      | .ok es => (.ok (finish es), ⟨s.cwd, s1.files⟩)

/-- The write_zip_app closure: compute the member list, serialize it, and
write the archive at the path; mode w truncates and writes the zip data at
offset 0, mode a appends the zip data starting at the offset given by the
existing content's length (zipfile seeks to the end of the file and records
absolute offsets from there). On failure the exception propagates; the
partial content left at the path by a failed streamed write is not
modelled. -/
def writeZipApp (w : World) (req : BuildRequest) (filePath : String) (append : Bool) (s : Sys) : Except String Unit × Sys :=
  match zipAppPhase w req s with
  | (.error e, s1) => (.error e, s1)
  | (.ok es, s1) =>
    (.ok (), s1.writeFile filePath
      (if append then
        ((s1.files filePath).getD []) ++ zipDataAt ((s1.files filePath).getD []).length es
       else zipDataAt 0 es))

/-- The write_unix closure: truncate the path and write the shebang header
line; when an append path is given, open it, read it back and append its
bytes after the header. -/
def writeUnix (shebang filePath : String) (appendFilePath : Option String) (s : Sys) : Except String Unit × Sys :=
  let s1 := s.writeFile filePath (strBytes ("#!" ++ shebang ++ "\n"))
  match appendFilePath with
  | none => (.ok (), s1)
  | some ap =>
    match s1.files ap with
    | none => (.error "cannot open append file", s1)
    | some bs => (.ok (), s1.writeFile filePath (strBytes ("#!" ++ shebang ++ "\n") ++ bs))

/-- The build function of pyz.py: without a launcher write one archive; with
a launcher, either write the header and then the archive in append mode at
the same path (single output, lines 101-104) or write the archive and then a
second file holding the header plus a copy of the archive (two outputs, lines
105-109). -/
def build (w : World) (req : BuildRequest) (s : Sys) : Except String Unit × Sys :=
  match req.unixify with
  | none => writeZipApp w req req.out_file_path false s
  | some u =>
    match u.out_file_path with
    | none =>
      match writeUnix u.shebang req.out_file_path none s with
      | (.ok _, s1) => writeZipApp w req req.out_file_path true s1
      | r => r
    | some uo =>
      match writeZipApp w req req.out_file_path false s with
      | (.ok _, s1) => writeUnix u.shebang uo (some req.out_file_path) s1
      | r => r

/-- Paths the launcher phase of build opens for reading, from lines 91-109:
none in single-output mode (write_unix is called without an append path), the
just-written archive in two-output mode. -/
def buildLauncherReads (req : BuildRequest) : List String :=
  match req.unixify with
  | none => []
  | some u =>
    match u.out_file_path with
    | none => []
    | some _ => [req.out_file_path]

/-- Example view whose only regular file is "a.py", holding bytes 1, 2, 3. -/
def fsFileOnly : FSView := ⟨fun p => p == "a.py", fun _ => [], fun _ => [1, 2, 3]⟩

/-- Example view with no regular files and a non-empty directory walk. -/
def fsDirOnly : FSView := ⟨fun _ => false, fun _ => [⟨"pkg", [], ["a.py"]⟩], fun _ => []⟩

/-- Example view with a two-level directory walk whose file contents are the
code points of the file path. -/
def fsWalkTwo : FSView :=
  ⟨fun _ => false,
   fun _ => [⟨"src", [], ["a.py", "b.txt"]⟩, ⟨"src/sub", [], ["c.py"]⟩],
   fun p => strBytes p⟩

/-- Example world: every working directory sees fsFileOnly and every
directory exists. -/
def worldEx : World := ⟨fun _ => fsFileOnly, fun _ => true⟩

/-- Example initial state: root working directory, no files written. -/
def sysEx : Sys := ⟨"/", fun _ => none⟩

/-- Example request in single-output launcher mode. -/
def reqSingle : BuildRequest :=
  ⟨"out.pyz", "m", [Include.make "a.py" none none], some "wdir", none, none, none,
   some ⟨none, "/usr/bin/env python"⟩⟩

/-- Example request in two-output launcher mode. -/
def reqTwo : BuildRequest :=
  ⟨"out.pyz", "m", [Include.make "a.py" none none], some "wdir", none, none, none,
   some ⟨some "app.run", "/usr/bin/env python"⟩⟩

/-- Member list that reqSingle's include resolution produces: the single file
include followed by the generated bootstrap. -/
def esSingle : List Entry :=
  [("dist/a.py", [1, 2, 3]), ("__main__.py", strBytes (generateMain "dist/m" none none))]

theorem strAppendNeEmpty (s t : String) (h : s ≠ "") : s ++ t ≠ "" := by
  cases s with
  | mk d =>
    cases d with
    | nil => exact absurd rfl h
    | cons c cs =>
      cases t with
      | mk e =>
        intro he
        have hd : c :: (cs ++ e) = ([] : List Char) := congrArg String.data he
        simp at hd

theorem versionCheckTemplateNeEmpty (c a b : String) : versionCheckTemplate c a b ≠ "" := by
  unfold versionCheckTemplate
  apply strAppendNeEmpty
  apply strAppendNeEmpty
  apply strAppendNeEmpty
  apply strAppendNeEmpty
  apply strAppendNeEmpty
  apply strAppendNeEmpty
  decide

theorem lengthPosEqNeEmpty (s : String) : decide (0 < s.length) = (s != "") := by
  by_cases h : s = ""
  · subst h; rfl
  · have h1 : decide (0 < s.length) = true := by
      apply decide_eq_true
      cases s with
      | mk d =>
        cases d with
        | nil => exact absurd rfl h
        | cons c cs => exact Nat.succ_pos cs.length
    have h2 : (s != "") = true := by
      simp only [bne_iff_ne, ne_eq]
      exact h
    rw [h1, h2]

theorem filterLenPosEqFilterNe (l : List String) :
    l.filter (fun pkg => decide (0 < pkg.length)) = l.filter (fun seg => seg != "") := by
  induction l with
  | nil => rfl
  | cons x xs ih => simp only [List.filter_cons, lengthPosEqNeEmpty, ih]

theorem foldlAppendSingleton {α β : Type} (h : α → β) :
    ∀ (l : List α) (acc : List β), l.foldl (fun a x => a ++ [h x]) acc = acc ++ l.map h := by
  intro l
  induction l with
  | nil => intro acc; simp
  | cons x xs ih => intro acc; simp [ih]

theorem fnmatchFilterEqFilter (ns : List String) (pat : String) :
    fnmatchFilter ns pat = ns.filter (fun n => fnmatchStr n pat) := by
  induction ns with
  | nil => rfl
  | cons n rest ih =>
    unfold fnmatchFilter at ih ⊢
    cases h : fnmatchStr n pat <;> simp [List.foldr, h, ih, List.filter_cons]

theorem foldlAppendConcat {α β : Type} (g : α → List β) :
    ∀ (l : List α) (acc : List β), l.foldl (fun a x => a ++ g x) acc = acc ++ concatMap g l := by
  intro l
  induction l with
  | nil => intro acc; simp [concatMap]
  | cons x xs ih => intro acc; simp [concatMap, ih]

theorem walkFoldEqConcatMap (fs : FSView) (archivePath glob : String)
    (l : List WalkEntry) (acc : List Entry) :
    l.foldl (fun a info =>
      (fnmatchFilter info.filenames glob).foldl (fun a2 fn =>
        a2 ++ [(pathJoin archivePath (pathJoin info.dirpath fn),
                fs.readFile (pathJoin info.dirpath fn))]) a) acc
    = acc ++ concatMap (fun info =>
        (info.filenames.filter (fun fn => fnmatchStr fn glob)).map (fun fn =>
          (pathJoin archivePath (pathJoin info.dirpath fn),
           fs.readFile (pathJoin info.dirpath fn)))) l := by
  simp only [foldlAppendSingleton, fnmatchFilterEqFilter, foldlAppendConcat]

theorem zipAppPhase_snd (w : World) (req : BuildRequest) (s : Sys) :
    (zipAppPhase w req s).2 = s := by
  unfold zipAppPhase chdirOp
  cases req.include_directory with
  | none => rfl
  | some d =>
    cases hw : w.dirExists (pathJoin s.cwd d)
    · simp [hw]
    · simp only [hw, if_pos]
      cases collectEntries (w.view (pathJoin s.cwd d)) (req.archive_source_base.getD "dist")
        req.includes [] <;> rfl

theorem zipAppPhase_fst_files (w : World) (req : BuildRequest) (c : String)
    (f g : String → Option Bytes) :
    (zipAppPhase w req ⟨c, f⟩).1 = (zipAppPhase w req ⟨c, g⟩).1 := by
  unfold zipAppPhase chdirOp
  cases req.include_directory with
  | none => rfl
  | some d =>
    cases hw : w.dirExists (pathJoin c d)
    · simp [hw]
    · simp only [hw, if_pos]
      cases collectEntries (w.view (pathJoin c d)) (req.archive_source_base.getD "dist")
        req.includes [] <;> rfl

theorem writeZipApp_cwd (w : World) (req : BuildRequest) (p : String) (a : Bool) (s : Sys) :
    (writeZipApp w req p a s).2.cwd = s.cwd := by
  unfold writeZipApp
  have h := zipAppPhase_snd w req s
  cases hz : zipAppPhase w req s with
  | mk r s1 =>
    rw [hz] at h
    cases r <;> simp_all [Sys.writeFile]

theorem writeUnix_cwd (sh p : String) (ap : Option String) (s : Sys) :
    (writeUnix sh p ap s).2.cwd = s.cwd := by
  unfold writeUnix
  cases ap with
  | none => rfl
  | some x =>
    simp only [Sys.writeFile]
    split <;> rfl

/-- C1: the emitted version-guard condition is the disjunction of
"(v < minimum)" when a minimum is set and "(v >= maximum)" (exclusive
maximum) or "(v > maximum)" (inclusive maximum) when a maximum is set; for
minimum (2,7,0), maximum (3,0,0) and exclusive_maximum true the guard
triggers at running versions (2,6,0) and (3,0,0) and does not trigger at
(2,7,0) or (2,9,9). -/
theorem c1_version_guard_condition :
    strJoin " or " (versionChecks ⟨some (2,7,0), some (3,0,0), true⟩) =
      "(v < (2, 7, 0)) or (v >= (3, 0, 0))"
  ∧ strJoin " or " (versionChecks ⟨some (2,7,0), some (3,0,0), false⟩) =
      "(v < (2, 7, 0)) or (v > (3, 0, 0))"
  ∧ versionChecks ⟨some (2,7,0), none, true⟩ = ["(v < (2, 7, 0))"]
  ∧ versionChecks ⟨none, some (3,0,0), true⟩ = ["(v >= (3, 0, 0))"]
  ∧ versionChecks ⟨none, some (3,0,0), false⟩ = ["(v > (3, 0, 0))"]
  ∧ versionCode (some ⟨some (2,7,0), some (3,0,0), true⟩) =
      versionCheckTemplate "(v < (2, 7, 0)) or (v >= (3, 0, 0))" "2.7.0 <= " " < 3.0.0"
  ∧ guardTriggers ⟨some (2,7,0), some (3,0,0), true⟩ (2,6,0) = true
  ∧ guardTriggers ⟨some (2,7,0), some (3,0,0), true⟩ (3,0,0) = true
  ∧ guardTriggers ⟨some (2,7,0), some (3,0,0), true⟩ (2,7,0) = false
  ∧ guardTriggers ⟨some (2,7,0), some (3,0,0), true⟩ (2,9,9) = false := by
  decide

/-- C3: an include whose source is not a regular file (a directory include)
and whose destination differs from its source makes addIncludePath raise the
configuration error, for every file-system view (hence every non-empty
directory) and every glob, with no member of this include written. -/
theorem c3_directory_remap_error (fs : FSView) (base : String) (inc : Include)
    (entries : List Entry)
    (hdir : fs.isfile inc.source_path = false)
    (hne : inc.source_path ≠ inc.destination_path) :
    addIncludePath fs base inc entries =
      .error "Source is a directory and cannot be mapped." := by
  unfold addIncludePath
  rw [hdir]
  simp [hne]

/-- Witness for c3_directory_remap_error at a concrete non-empty directory
walk and glob. -/
theorem c3_directory_remap_error_witness :
    addIncludePath fsDirOnly "app" ⟨"pkg", "lib", "*.py"⟩ [] =
      .error "Source is a directory and cannot be mapped." :=
  c3_directory_remap_error fsDirOnly "app" ⟨"pkg", "lib", "*.py"⟩ [] rfl (by decide)

/-- C5 counterexample: on path "./mod" the code first applies
os.path.normpath (so the "." segment disappears and the module reference is
"mod"), while the claimed split-then-drop-empty rule keeps the "." segment
and yields "..mod"; the claimed general translation rule therefore differs
from the code. -/
theorem c5_counterexample :
    dottedModuleRef "./mod" = "mod"
  ∧ claimDottedRef "./mod" = "..mod"
  ∧ dottedModuleRef "./mod" ≠ claimDottedRef "./mod"
  ∧ generateMain "./mod" none none = mainTemplate "" "mod" "main" := by
  decide

/-- C5 (amended): given main module archive path "app/pkg/mod", no function
override and no version requirement, the bootstrap text is exactly the main
template around "app.pkg.mod" and "main", contains "from app.pkg.mod import
main" and "main()" and no version-guard text; in general the dotted module
reference is obtained by first normalizing the path with os.path.normpath and
then splitting on the OS separator, dropping empty segments and joining with
".". -/
theorem c5_bootstrap_text :
    generateMain "app/pkg/mod" none none =
      "\n# Run main\nfrom app.pkg.mod import main\nmain()\n"
  ∧ strContains (generateMain "app/pkg/mod" none none) "from app.pkg.mod import main" = true
  ∧ strContains (generateMain "app/pkg/mod" none none) "main()" = true
  ∧ strContains (generateMain "app/pkg/mod" none none) "sys.version_info" = false
  ∧ versionCode none = ""
  ∧ (∀ p : String, dottedModuleRef p =
      strJoin "." ((splitSlash (normpath p)).filter (fun seg => seg != ""))) := by
  refine ⟨by decide, by decide, by decide, by decide, rfl, ?_⟩
  intro p
  unfold dottedModuleRef
  rw [filterLenPosEqFilterNe]

/-- C6: a requirement with both bounds absent produces the same bootstrap as
supplying no requirement at all (no guard code); in general guard text is
emitted if and only if at least one bound is set. -/
theorem c6_guard_iff_bound :
    (∀ (mp : String) (mf : Option String) (b : Bool),
       generateMain mp mf (some ⟨none, none, b⟩) = generateMain mp mf none)
  ∧ (∀ vr : VersionRequirement,
       versionCode (some vr) = "" ↔ (vr.minimum = none ∧ vr.maximum = none)) := by
  constructor
  · intro mp mf b; rfl
  · intro vr
    obtain ⟨mn, mx, ex⟩ := vr
    cases mn <;> cases mx <;>
      simp [versionCode, versionChecks, versionCheckTemplateNeEmpty]

/-- C8: an include whose source is an existing regular file adds exactly one
member, at archive_root/destination_path, whose content is the source file's
content. -/
theorem c8_file_include_member (fs : FSView) (base : String) (inc : Include)
    (entries : List Entry)
    (hf : fs.isfile inc.source_path = true) :
    addIncludePath fs base inc entries =
      .ok (entries ++ [(pathJoin base inc.destination_path, fs.readFile inc.source_path)]) := by
  unfold addIncludePath
  rw [hf]
  simp

/-- Witness for c8_file_include_member on a concrete single-file include. -/
theorem c8_file_include_member_witness :
    addIncludePath fsFileOnly "dist" (Include.make "a.py" none none) [] =
      .ok [("dist/a.py", [1, 2, 3])] :=
  (c8_file_include_member fsFileOnly "dist" (Include.make "a.py" none none) [] rfl).trans
    (by rfl)

/-- C9: a directory include with destination equal to source adds exactly the
walked files whose names match the glob, one member each at
archive_root/<walked path> (preserving the relative structure), and no member
for a non-matching name. -/
theorem c9_directory_include_members (fs : FSView) (base : String) (inc : Include)
    (entries : List Entry)
    (hdir : fs.isfile inc.source_path = false)
    (heq : inc.source_path = inc.destination_path) :
    addIncludePath fs base inc entries =
      .ok (entries ++ concatMap (fun info =>
        (info.filenames.filter (fun fn => fnmatchStr fn inc.glob)).map (fun fn =>
          (pathJoin base (pathJoin info.dirpath fn),
           fs.readFile (pathJoin info.dirpath fn)))) (fs.walk inc.source_path)) := by
  unfold addIncludePath
  rw [hdir]
  simp [heq, walkFoldEqConcatMap]

/-- Witness for c9_directory_include_members on a two-level walk where
"b.txt" does not match the glob "*.py" and the two matching files are added
with their relative structure kept. -/
theorem c9_directory_include_members_witness :
    addIncludePath fsWalkTwo "app" ⟨"src", "src", "*.py"⟩ [] =
      .ok [("app/src/a.py", strBytes "src/a.py"),
           ("app/src/sub/c.py", strBytes "src/sub/c.py")] :=
  (c9_directory_include_members fsWalkTwo "app" ⟨"src", "src", "*.py"⟩ [] rfl rfl).trans
    (by rfl)

/-- C10: for a file include the glob is never consulted: any glob g yields
the same single member at archive_root/destination even when the source's
filename does not match g; and an include built without a glob defaults it to
"*.py". -/
theorem c10_file_include_ignores_glob (fs : FSView) (base src dst g : String)
    (entries : List Entry)
    (hf : fs.isfile src = true)
    (hnm : fnmatchStr (baseName src) g = false) :
    addIncludePath fs base ⟨src, dst, g⟩ entries =
      .ok (entries ++ [(pathJoin base dst, fs.readFile src)])
  ∧ (Include.make src (some dst) none).glob = "*.py" := by
  constructor
  · unfold addIncludePath
    rw [hf]
    simp
  · rfl

/-- Witness for c10_file_include_ignores_glob: the file "a.py" is added even
under the glob "*.txt", which its name does not match. -/
theorem c10_file_include_ignores_glob_witness :
    addIncludePath fsFileOnly "dist" ⟨"a.py", "a.py", "*.txt"⟩ [] =
      .ok [("dist/a.py", [1, 2, 3])]
  ∧ (Include.make "a.py" (some "a.py") none).glob = "*.py" :=
  ⟨((c10_file_include_ignores_glob fsFileOnly "dist" "a.py" "a.py" "*.txt" [] rfl rfl).1).trans
     (by rfl),
   (c10_file_include_ignores_glob fsFileOnly "dist" "a.py" "a.py" "*.txt" [] rfl rfl).2⟩

/-- C7: a build that supplies a working directory (include_directory) leaves
the process working directory after the call equal to the one from before the
call, whether the build returns normally or raises during include resolution
and writing. -/
theorem c7_cwd_restored (w : World) (req : BuildRequest) (s : Sys) (d : String)
    (hd : req.include_directory = some d) :
    (build w req s).2.cwd = s.cwd := by
  unfold build
  cases hu : req.unixify with
  | none => exact writeZipApp_cwd w req req.out_file_path false s
  | some u =>
    dsimp only
    cases huo : u.out_file_path with
    | none =>
      dsimp only
      cases hwu : writeUnix u.shebang req.out_file_path none s with
      | mk r1 s1 =>
        have h1 : s1.cwd = s.cwd := by
          have h := writeUnix_cwd u.shebang req.out_file_path none s
          rw [hwu] at h
          exact h
        cases r1 with
        | ok x => exact (writeZipApp_cwd w req req.out_file_path true s1).trans h1
        | error e => exact h1
    | some uo =>
      dsimp only
      cases hwz : writeZipApp w req req.out_file_path false s with
      | mk r1 s1 =>
        have h1 : s1.cwd = s.cwd := by
          have h := writeZipApp_cwd w req req.out_file_path false s
          rw [hwz] at h
          exact h
        cases r1 with
        | ok x => exact (writeUnix_cwd u.shebang uo (some req.out_file_path) s1).trans h1
        | error e => exact h1

/-- Witness for c7_cwd_restored on a concrete request that supplies the
working directory "wdir". -/
theorem c7_cwd_restored_witness : (build worldEx reqSingle sysEx).2.cwd = sysEx.cwd :=
  c7_cwd_restored worldEx reqSingle sysEx "wdir" rfl

/-- C2 counterexample: in single-output launcher mode the final bytes at the
output path are NOT the header line followed by a byte-for-byte copy of the
no-launcher archive: the archive data is appended in mode a starting at the
offset given by the header length, so the absolute offsets recorded in its
central directory and end record are shifted relative to the standalone
archive written at offset 0; moreover the code writes the header first and
reads nothing back (its launcher read set is empty and in particular does not
contain the output path), so the claimed copy-read-back mechanism is not the
mechanism of the code either. -/
theorem c2_counterexample :
    (build worldEx reqSingle sysEx).1 = Except.ok ()
  ∧ (build worldEx reqSingle sysEx).2.files "out.pyz" ≠
      some (strBytes ("#!" ++ "/usr/bin/env python" ++ "\n") ++
        ((build worldEx { reqSingle with unixify := none } sysEx).2.files "out.pyz").getD [])
  ∧ buildLauncherReads reqSingle = []
  ∧ reqSingle.out_file_path ∉ buildLauncherReads reqSingle := by
  refine ⟨rfl, by decide, rfl, by decide⟩

/-- C2 (amended): in single-output launcher mode the final file at the output
path is the header line followed by the zip data for exactly the member list
that the same request produces without a launcher, written by the archive
writer opened in append mode at a start offset equal to the header length;
because the zip format records absolute file offsets, these bytes differ from
a byte-for-byte copy of the standalone archive (written at offset 0), and
nothing is read back from a just-written archive. -/
theorem c2_single_output (w : World) (req : BuildRequest) (s : Sys) (u : Unixify)
    (es : List Entry)
    (hu : req.unixify = some u) (ho : u.out_file_path = none)
    (hes : (zipAppPhase w req s).1 = Except.ok es) :
    (build w req s).1 = Except.ok ()
  ∧ (build w req s).2.files req.out_file_path =
      some (strBytes ("#!" ++ u.shebang ++ "\n") ++
        zipDataAt (strBytes ("#!" ++ u.shebang ++ "\n")).length es)
  ∧ (build w { req with unixify := none } s).2.files req.out_file_path =
      some (zipDataAt 0 es)
  ∧ buildLauncherReads req = [] := by
  have hb : build w req s =
      writeZipApp w req req.out_file_path true
        (Sys.writeFile s req.out_file_path (strBytes ("#!" ++ u.shebang ++ "\n"))) := by
    unfold build
    rw [hu]
    dsimp only
    rw [ho]
    rfl
  have hp : build w { req with unixify := none } s =
      writeZipApp w req req.out_file_path false s := by
    unfold build
    rfl
  have hreads : buildLauncherReads req = [] := by
    unfold buildLauncherReads
    rw [hu]
    dsimp only
    rw [ho]
  have hfst : (zipAppPhase w req
        (Sys.writeFile s req.out_file_path (strBytes ("#!" ++ u.shebang ++ "\n")))).1
      = (zipAppPhase w req s).1 := by
    cases s with
    | mk c f => exact zipAppPhase_fst_files w req c _ f
  cases hz1 : zipAppPhase w req
      (Sys.writeFile s req.out_file_path (strBytes ("#!" ++ u.shebang ++ "\n"))) with
  | mk rz1 sz1 =>
    cases hz : zipAppPhase w req s with
    | mk rz sz =>
      have hrz : rz = Except.ok es := by
        have h1 := hes
        rw [hz] at h1
        exact h1
      have hrz1 : rz1 = Except.ok es := by
        have h2 := hfst
        rw [hz1, hz] at h2
        exact h2.trans hrz
      have hsz : sz = s := by
        have h3 := zipAppPhase_snd w req s
        rw [hz] at h3
        exact h3
      have hsz1 : sz1 =
          Sys.writeFile s req.out_file_path (strBytes ("#!" ++ u.shebang ++ "\n")) := by
        have h4 := zipAppPhase_snd w req
          (Sys.writeFile s req.out_file_path (strBytes ("#!" ++ u.shebang ++ "\n")))
        rw [hz1] at h4
        exact h4
      rw [hrz, hsz] at hz
      rw [hrz1, hsz1] at hz1
      rw [hb, hp]
      unfold writeZipApp
      rw [hz1, hz]
      refine ⟨rfl, ?_, ?_, hreads⟩ <;> simp [Sys.writeFile]

/-- Witness for c2_single_output on a concrete single-output build with its
concrete member list. -/
theorem c2_single_output_witness :
    (build worldEx reqSingle sysEx).1 = Except.ok ()
  ∧ (build worldEx reqSingle sysEx).2.files reqSingle.out_file_path =
      some (strBytes ("#!" ++ "/usr/bin/env python" ++ "\n") ++
        zipDataAt (strBytes ("#!" ++ "/usr/bin/env python" ++ "\n")).length esSingle)
  ∧ (build worldEx { reqSingle with unixify := none } sysEx).2.files
        reqSingle.out_file_path =
      some (zipDataAt 0 esSingle)
  ∧ buildLauncherReads reqSingle = [] :=
  c2_single_output worldEx reqSingle sysEx ⟨none, "/usr/bin/env python"⟩ esSingle rfl rfl rfl

/-- C4: in two-output launcher mode the plain archive stays at the output
path, equal to the file the no-launcher build leaves there, and the secondary
file is exactly the header line plus newline followed by a byte-for-byte copy
of the plain archive. -/
theorem c4_two_output (w : World) (req : BuildRequest) (s : Sys) (u : Unixify) (uo : String)
    (hu : req.unixify = some u) (ho : u.out_file_path = some uo)
    (hne : uo ≠ req.out_file_path)
    (hok : (build w req s).1 = Except.ok ()) :
    (build w req s).2.files req.out_file_path =
      (build w { req with unixify := none } s).2.files req.out_file_path
  ∧ (build w req s).2.files uo =
      some (strBytes ("#!" ++ u.shebang ++ "\n") ++
        ((build w { req with unixify := none } s).2.files req.out_file_path).getD []) := by
  have hne2 : req.out_file_path ≠ uo := Ne.symm hne
  have hb : build w req s =
      (match writeZipApp w req req.out_file_path false s with
       | (.ok _, s1) => writeUnix u.shebang uo (some req.out_file_path) s1
       | r => r) := by
    unfold build
    rw [hu]
    dsimp only
    rw [ho]
  have hp : build w { req with unixify := none } s =
      writeZipApp w req req.out_file_path false s := by
    unfold build
    rfl
  cases hz : zipAppPhase w req s with
  | mk rz sz =>
    have hsz : sz = s := by
      have h2 := zipAppPhase_snd w req s
      rw [hz] at h2
      exact h2
    subst hsz
    unfold writeZipApp at hb hp
    rw [hz] at hb hp
    cases rz with
    | error e =>
      rw [hb] at hok
      simp at hok
    | ok es =>
      rw [hb, hp]
      unfold writeUnix
      simp [Sys.writeFile, hne, hne2]

/-- Witness for c4_two_output on a concrete two-output build. -/
theorem c4_two_output_witness :
    (build worldEx reqTwo sysEx).2.files reqTwo.out_file_path =
      (build worldEx { reqTwo with unixify := none } sysEx).2.files reqTwo.out_file_path
  ∧ (build worldEx reqTwo sysEx).2.files "app.run" =
      some (strBytes ("#!" ++ "/usr/bin/env python" ++ "\n") ++
        ((build worldEx { reqTwo with unixify := none } sysEx).2.files
          reqTwo.out_file_path).getD []) :=
  c4_two_output worldEx reqTwo sysEx ⟨some "app.run", "/usr/bin/env python"⟩ "app.run" rfl rfl
    (by decide) rfl
